import Mathlib

set_option maxHeartbeats 1000000

/-!
Verification of the cropduster derived-image engine.

The repository ships `cropduster/tests.py` and `cropduster/fields.py`; the
module `cropduster/models.py` that the tests exercise (Image, ImageSize,
ImageSizeSet, Crop, `add_size_set`, `render`, `delete`, size resolution) is
not part of the visible sources.  Its behaviour is therefore modelled from
the specification, with the test suite pinning the observable behaviour
where the two disagree.  `fields.py` (the file descriptor logic) is embedded
directly from its source.
-/

namespace Cropduster

/-- Error taxonomy of the derivation engine (spec section 7).
`ProtectedOriginal` corresponds to the `ValidationError` that
`Image.render` raises in the test suite. -/
inductive CDError
  | NotFound
  | InsufficientSizeData
  | ProtectedOriginal
  | GeometryError
  | IOFailure
  | TypeMismatch
  deriving DecidableEq

/-- Decidable equality for `Except` results, so that concrete runs of the
fallible operations can be checked by `decide`. -/
instance {ε α : Type} [DecidableEq ε] [DecidableEq α] : DecidableEq (Except ε α) :=
  fun a b =>
    match a, b with
    | .ok x, .ok y =>
      if h : x = y then .isTrue (congrArg Except.ok h)
      else .isFalse (fun hh => h (Except.ok.inj hh))
    | .error x, .error y =>
      if h : x = y then .isTrue (congrArg Except.error h)
      else .isFalse (fun hh => h (Except.error.inj hh))
    | .ok _, .error _ => .isFalse (fun hh => Except.noConfusion hh)
    | .error _, .ok _ => .isFalse (fun hh => Except.noConfusion hh)

/-- Modelled from the spec: a crop rectangle, section 3 — a region
`x1, y1, x2, y2` in the original image's pixel coordinate space. -/
structure Box where
  x1 : Int
  y1 : Int
  x2 : Int
  y2 : Int
  deriving DecidableEq

/-- Modelled from the spec: stored-file identifiers are opaque paths handed
back by the file-store collaborator (spec section 6).  `original s` is the
path of an uploaded source file; `derived base slug` is the path the
renderer chooses for a derived image, formed from the parent's path and a
distinguishing slug.  Distinct constructors model distinct paths. -/
inductive PathT
  | original (name : String)
  | derived (base : String) (slug : String)
  deriving DecidableEq

/-- Modelled from the spec: the content of a persisted file, to the
precision a content hash can distinguish.  `source n` is the byte content of
an uploaded original; `rendered src box w h` is the pixel buffer produced by
cropping content `src` to rectangle `box` and resizing to `w` by `h`
(spec section 4.3).  Two files have equal md5 hashes exactly when their
`FileContent` values are equal. -/
inductive FileContent
  | source (n : Nat)
  | rendered (src : FileContent) (box : Box) (w h : Int)
  deriving DecidableEq

/-- Modelled from the spec: `cropduster.models.ImageSize` (the spec's
SizeSpec, section 3): name, slug, nullable width / height / aspect ratio,
crop and retina flags, and the owning size set (`none` means a manual,
ad-hoc size). -/
structure ImageSize where
  id : Nat
  name : String
  slug : String
  width : Option Int
  height : Option Int
  aspect_ratio : Option ℚ
  auto_crop : Bool
  retina : Bool
  size_set : Option Nat
  deriving DecidableEq

/-- Modelled from the spec: `cropduster.models.ImageSizeSet` (the spec's
SizeSet, section 3): a named, slugged group of ImageSizes; membership is the
`ImageSize.size_set` back-reference. -/
structure ImageSizeSet where
  id : Nat
  name : String
  slug : String
  deriving DecidableEq

/-- Modelled from the spec: `cropduster.models.Image` (spec section 3): a
node of the derivation graph.  `id = 0` plays the role of Django's `pk is
None`, an unsaved row; `save_image` assigns a real id.  `image` is the
stored-file reference, `size` the id of the governing ImageSize (null for
the root original), `original` the id of the parent Image (null for the
root).  `pending` is the in-memory rendered buffer that `render` produces
and that only `save_image` commits to the file store (spec section 4.3). -/
structure Image where
  id : Nat
  image : Option PathT
  width : Option Int
  height : Option Int
  size : Option Nat
  original : Option Nat
  pending : Option FileContent
  deriving DecidableEq

/-- Modelled from the spec: `cropduster.models.Crop` (spec section 3), the
crop rectangle attached one-to-one to a derived Image. -/
structure Crop where
  image_id : Nat
  box : Box
  deriving DecidableEq

/-- Modelled from the spec: the entity store plus the file store (spec
section 6), holding the persisted rows of each model and the persisted
files.  `next_id` is the id the next inserted row receives. -/
structure DB where
  images : List Image
  sizes : List ImageSize
  size_sets : List ImageSizeSet
  crops : List Crop
  files : List (PathT × FileContent)
  next_id : Nat
  deriving DecidableEq

/-- Modelled from the spec: round to the nearest integer with the
round-half-away-from-zero tie break (spec section 4.1, the rounding rule of
the reference implementation's Python 2 `round`). -/
def roundHalfAway (q : ℚ) : Int :=
  if 0 ≤ q then Rat.floor (q + 1 / 2) else -Rat.floor (-q + 1 / 2)

/-- Modelled from the spec: aspect ratios are stored rounded to two decimal
places (spec section 4.1). -/
def round2 (q : ℚ) : ℚ :=
  (roundHalfAway (q * 100) : ℚ) / 100

/-- Modelled from the spec: `ImageSize.get_aspect_ratio` (spec section 4.1):
the stored aspect ratio if present, otherwise `round(width / height, 2)`;
fails with `InsufficientSizeData` when fewer than two of the three size
fields are known. -/
def get_aspect_ratio (s : ImageSize) : Except CDError ℚ :=
  match s.aspect_ratio with
  | some a => .ok a
  | none =>
    match s.width, s.height with
    | some w, some h => .ok (round2 ((w : ℚ) / (h : ℚ)))
    | _, _ => .error .InsufficientSizeData

/-- Modelled from the spec: `ImageSize.get_width` (spec section 4.1): the
stored width if present, otherwise `round(height * aspect_ratio)`; fails
with `InsufficientSizeData` when fewer than two of the three size fields are
known. -/
def get_width (s : ImageSize) : Except CDError Int :=
  match s.width with
  | some w => .ok w
  | none =>
    match s.height, s.aspect_ratio with
    | some h, some a => .ok (roundHalfAway ((h : ℚ) * a))
    | _, _ => .error .InsufficientSizeData

/-- Modelled from the spec: `ImageSize.get_height` (spec section 4.1): the
stored height if present, otherwise `round(width / aspect_ratio)`; fails
with `InsufficientSizeData` when fewer than two of the three size fields are
known. -/
def get_height (s : ImageSize) : Except CDError Int :=
  match s.height with
  | some h => .ok h
  | none =>
    match s.width, s.aspect_ratio with
    | some w, some a => .ok (roundHalfAway ((w : ℚ) / a))
    | _, _ => .error .InsufficientSizeData

/-- Number of the three size fields `width`, `height`, `aspect_ratio` that
are known on an ImageSize. -/
def knownCount (s : ImageSize) : Nat :=
  (if s.width.isSome then 1 else 0) + (if s.height.isSome then 1 else 0) +
    (if s.aspect_ratio.isSome then 1 else 0)

/-- Modelled from the spec: standalone SizeSpec resolution (spec section
4.1), `resolve(spec) -> (width, height, aspect_ratio)`.  If width and height
are both given the aspect ratio is `round(width / height, 2)`; a single
missing dimension is computed from the aspect ratio with
round-half-away-from-zero; with fewer than two of the three known it fails
with `InsufficientSizeData` and never defaults a missing dimension. -/
def resolve (s : ImageSize) : Except CDError (Int × Int × ℚ) :=
  match s.width, s.height with
  | some w, some h => .ok (w, h, round2 ((w : ℚ) / (h : ℚ)))
  | some w, none =>
    match s.aspect_ratio with
    | some a => .ok (w, roundHalfAway ((w : ℚ) / a), a)
    | none => .error .InsufficientSizeData
  | none, some h =>
    match s.aspect_ratio with
    | some a => .ok (roundHalfAway ((h : ℚ) * a), h, a)
    | none => .error .InsufficientSizeData
  | none, none => .error .InsufficientSizeData

/-- Modelled from the spec, behaviour pinned by `test_variable_sizes`: the
dimension resolution the renderer uses.  It is `resolve` except that when
the ImageSize stores only one of width / height and no aspect ratio, the
original image's aspect ratio `origAr` fills in for the missing one
(`tests.py` lines 325-341: a width-only size renders with
`height = round(width / original.aspect_ratio)`). -/
def resolveRender (s : ImageSize) (origAr : ℚ) : Except CDError (Int × Int × ℚ) :=
  match s.width, s.height with
  | some w, some h => .ok (w, h, round2 ((w : ℚ) / (h : ℚ)))
  | some w, none =>
    let a := match s.aspect_ratio with
      | some a => a
      | none => origAr
    .ok (w, roundHalfAway ((w : ℚ) / a), a)
  | none, some h =>
    let a := match s.aspect_ratio with
      | some a => a
      | none => origAr
    .ok (roundHalfAway ((h : ℚ) * a), h, a)
  | none, none => .error .InsufficientSizeData

/-- Modelled from the spec: read a persisted file from the file store (spec
section 6). -/
def lookupFile (fs : List (PathT × FileContent)) (p : PathT) : Option FileContent :=
  match fs.find? (fun e => decide (e.1 = p)) with
  | some e => some e.2
  | none => none

/-- Modelled from the spec: write a persisted file in the file store,
overwriting an existing file at the same path (spec section 6). -/
def setFile : List (PathT × FileContent) → PathT → FileContent →
    List (PathT × FileContent)
  | [], p, c => [(p, c)]
  | e :: t, p, c => if e.1 = p then (p, c) :: t else e :: setFile t p c

/-- Modelled from the spec: delete a persisted file (spec section 6). -/
def removeFile (fs : List (PathT × FileContent)) (p : PathT) :
    List (PathT × FileContent) :=
  fs.filter (fun e => decide (e.1 ≠ p))

/-- Entity-store lookup of an Image row by id (spec section 6). -/
def findImage (db : DB) (iid : Nat) : Option Image :=
  db.images.find? (fun i => decide (i.id = iid))

/-- Entity-store lookup of an ImageSize row by id (spec section 6). -/
def findSize (db : DB) (sid : Nat) : Option ImageSize :=
  db.sizes.find? (fun s => decide (s.id = sid))

/-- Entity-store lookup of the Crop row of an Image (spec section 6). -/
def findCrop (db : DB) (iid : Nat) : Option Crop :=
  db.crops.find? (fun c => decide (c.image_id = iid))

/-- The ImageSizes belonging to a size set, in entity-store order (spec
section 3, the `ImageSize.size_set` back-reference). -/
def specsOf (db : DB) (ssid : Nat) : List ImageSize :=
  db.sizes.filter (fun s => decide (s.size_set = some ssid))

/-- Modelled from the spec: look an ImageSizeSet up by name or by slug
(spec section 4.4, `add_size_set(name_or_slug)`). -/
def lookupSizeSet (db : DB) (name slug : Option String) : Option ImageSizeSet :=
  db.size_sets.find? (fun ss =>
    (match name with
     | some n => decide (ss.name = n)
     | none => false) ||
    (match slug with
     | some sl => decide (ss.slug = sl)
     | none => false))

/-- The persisted derived Images of an original, `original.derived` in the
tests (spec section 6: filtering derived Images by parent original). -/
def derivedImages (db : DB) (origId : Nat) : List Image :=
  db.images.filter (fun i => decide (i.original = some origId))

/-- The tests' `original.derived.count()`. -/
def derivedCount (db : DB) (origId : Nat) : Nat :=
  (derivedImages db origId).length

/-- Modelled from the spec: does the original already have a persisted
derived Image whose ImageSize has the given slug (spec section 4.4,
"matched by slug")? -/
def hasDerivedWithSlug (db : DB) (origId : Nat) (sl : String) : Bool :=
  db.images.any (fun i =>
    decide (i.original = some origId) &&
    (match i.size with
     | none => false
     | some sid =>
       match findSize db sid with
       | none => false
       | some s => decide (s.slug = sl)))

/-- Modelled from the spec: the unsaved derived-Image stub `add_size_set`
creates for one ImageSize (spec section 4.4): no stored file, no pixel
dimensions, governed by the ImageSize, child of the original. -/
def mkStub (origId : Nat) (s : ImageSize) : Image :=
  { id := 0, image := none, width := none, height := none,
    size := some s.id, original := some origId, pending := none }

/-- Modelled from the spec: `Image.add_size_set(name_or_slug)` (spec section
4.4).  Looks the ImageSizeSet up by name or slug, failing with `NotFound` if
no match; for each of its ImageSizes not already represented among the
original's derived Images (matched by slug) it returns a fresh unsaved stub.
Nothing is persisted by this call: the entity store is left untouched and
persistence of the returned stubs is the caller's responsibility. -/
def add_size_set (db : DB) (origId : Nat) (name slug : Option String) :
    Except CDError (List Image) :=
  match lookupSizeSet db name slug with
  | none => .error .NotFound
  | some ss =>
    .ok ((specsOf db ss.id).filterMap (fun s =>
      if hasDerivedWithSlug db origId s.slug then none else some (mkStub origId s)))

/-- Modelled from the spec: `Image.new_derived_image()` (spec section 4.4):
a single unsaved derived Image with no ImageSize assigned yet; the caller
assigns a manual ImageSize and/or Crop before rendering. -/
def new_derived_image (origId : Nat) : Image :=
  { id := 0, image := none, width := none, height := none,
    size := none, original := some origId, pending := none }

/-- Modelled from the spec: the root original Image as created when a source
file is first stored (spec section 3): it has the uploaded file and its
pixel dimensions, no ImageSize and no parent. -/
def mkOriginal (path : String) (w h : Int) : Image :=
  { id := 0, image := some (.original path), width := some w, height := some h,
    size := none, original := none, pending := none }

/-- The tests' `Image.is_original`: an Image with no parent reference. -/
def is_original (img : Image) : Bool :=
  img.original.isNone

/-- Modelled from the spec: `Image.save()` (spec sections 3 and 4.3).  An
unsaved row (`id = 0`) is inserted with a fresh id; a saved row is updated
in place.  Saving also commits the in-memory rendered buffer, if any, to the
file store at the Image's path — this is the explicit commit step after
which a forced render becomes visible on disk. -/
def save_image (db : DB) (img : Image) : DB :=
  { db with
    images :=
      if img.id = 0 then db.images ++ [{ img with id := db.next_id, pending := none }]
      else db.images.map (fun i => if i.id = img.id then { img with pending := none } else i),
    next_id := if img.id = 0 then db.next_id + 1 else db.next_id,
    files :=
      match img.pending, img.image with
      | some buf, some p => setFile db.files p buf
      | _, _ => db.files }

/-- Modelled from the spec: the crop-fitting algorithm (spec section 4.2):
the largest rectangle of aspect ratio `ar`, centered in the `w` by `h`
original bounds, that fits entirely inside them. -/
def fit_to_crop (w h : Int) (ar : ℚ) : Except CDError Box :=
  if ar ≤ 0 ∨ w ≤ 0 ∨ h ≤ 0 then .error .GeometryError
  else if ar ≤ (w : ℚ) / (h : ℚ) then
    let cw := roundHalfAway ((h : ℚ) * ar)
    let x1 := (w - cw) / 2
    .ok { x1 := x1, y1 := 0, x2 := x1 + cw, y2 := h }
  else
    let ch := roundHalfAway ((w : ℚ) / ar)
    let y1 := (h - ch) / 2
    .ok { x1 := 0, y1 := y1, x2 := w, y2 := y1 + ch }

/-- Modelled from the spec: the crop rectangle a render uses (spec section
4.3): the Image's stored Crop if present, otherwise a rectangle computed by
`fit_to_crop` inside the `w` by `h` original bounds, which is persisted as
the Image's Crop. -/
def renderBox (db : DB) (img : Image) (w h : Int) (ar : ℚ) :
    Except CDError (DB × Box) :=
  match findCrop db img.id with
  | some c => .ok (db, c.box)
  | none =>
    match fit_to_crop w h ar with
    | .error e => .error e
    | .ok b => .ok ({ db with crops := db.crops ++ [{ image_id := img.id, box := b }] }, b)

/-- The basename a derived image's path is built from. -/
def PathT.base : PathT → String
  | .original n => n
  | .derived b sl => b ++ "." ++ sl

/-- Modelled from the spec: `Image.render(force)` (spec section 4.3),
behaviour pinned by the test suite.  Rendering an Image with no parent (the
root original; `test_render_original` shows the protection is keyed on the
parent reference, not on `size`, since it assigns a size to the original and
still gets the error) fails with `ProtectedOriginal` unless forced; a forced
original render reads its own file and resolves its assigned size, leaving
the buffer pending in memory.  A derived render reads the parent's file,
resolves its size against the parent's aspect ratio, takes the stored Crop
or computes and persists one, and leaves the buffer pending under a fresh
derived path.  A derived Image with no ImageSize renders at its stored
Crop's own dimensions (`test_crop`).  No file is written by `render`
itself. -/
def render (db : DB) (img : Image) (force : Bool) : Except CDError (DB × Image) :=
  match img.original with
  | none =>
    if force = false then .error .ProtectedOriginal
    else
      match img.image with
      | none => .error .IOFailure
      | some path =>
        match lookupFile db.files path with
        | none => .error .IOFailure
        | some content =>
          match img.width, img.height with
          | some ow, some oh =>
            match img.size with
            | none => .error .InsufficientSizeData
            | some sid =>
              match findSize db sid with
              | none => .error .NotFound
              | some s =>
                match resolveRender s ((ow : ℚ) / (oh : ℚ)) with
                | .error e => .error e
                | .ok (w, h, _) =>
                  if w ≤ 0 ∨ h ≤ 0 then .error .GeometryError
                  else
                    match renderBox db img ow oh ((w : ℚ) / (h : ℚ)) with
                    | .error e => .error e
                    | .ok (db1, box) =>
                      .ok (db1, { img with
                        width := some w, height := some h,
                        pending := some (.rendered content box w h) })
          | _, _ => .error .GeometryError
  | some oid =>
    match findImage db oid with
    | none => .error .NotFound
    | some orig =>
      match orig.image with
      | none => .error .IOFailure
      | some opath =>
        match lookupFile db.files opath with
        | none => .error .IOFailure
        | some content =>
          match orig.width, orig.height with
          | some ow, some oh =>
            match img.size with
            | none =>
              match findCrop db img.id with
              | none => .error .InsufficientSizeData
              | some c =>
                let w := c.box.x2 - c.box.x1
                let h := c.box.y2 - c.box.y1
                .ok (db, { img with
                  width := some w, height := some h,
                  image := some (.derived opath.base (toString img.id)),
                  pending := some (.rendered content c.box w h) })
            | some sid =>
              match findSize db sid with
              | none => .error .NotFound
              | some s =>
                match resolveRender s ((ow : ℚ) / (oh : ℚ)) with
                | .error e => .error e
                | .ok (w, h, _) =>
                  if w ≤ 0 ∨ h ≤ 0 then .error .GeometryError
                  else
                    match renderBox db img ow oh ((w : ℚ) / (h : ℚ)) with
                    | .error e => .error e
                    | .ok (db1, box) =>
                      .ok (db1, { img with
                        width := some w, height := some h,
                        image := some (.derived opath.base s.slug),
                        pending := some (.rendered content box w h) })
          | _, _ => .error .GeometryError

/-- Fuel-bounded test that walking `img`'s parent chain upward reaches the
Image with id `root`; with fuel at least the image-table size this is exact
membership of the subtree rooted at `root` for acyclic parent chains. -/
def inSubtree (db : DB) : Nat → Image → Nat → Bool
  | 0, img, root => decide (img.id = root)
  | fuel + 1, img, root =>
    decide (img.id = root) ||
    (match img.original with
     | none => false
     | some p =>
       match findImage db p with
       | none => false
       | some par => inSubtree db fuel par root)

/-- Membership of an id in a list of ids, as a boolean. -/
def idMem (l : List Nat) (x : Nat) : Bool :=
  l.any (fun d => decide (d = x))

/-- The ids of the Images a cascade delete of `root` removes: every
persisted Image whose parent chain reaches `root`, the root included. -/
def deletedIds (db : DB) (root : Nat) : List Nat :=
  (db.images.filter (fun i => inSubtree db db.images.length i root)).map Image.id

/-- Modelled from the spec: `Image.delete()` (spec sections 3, 4.4 and 5).
Deleting a missing row fails with `NotFound`.  Deleting the root original
cascades: every Image of its subtree and their Crops are removed, the
original's stored file is deleted, and manual ImageSizes left referenced by
no surviving Image are removed with the subtree.  Deleting a derived Image
removes its row and its Crop, and removes its ImageSize too when that size
is manual (no owning size set) and no other Image still references it. -/
def delete_image (db : DB) (iid : Nat) : Except CDError DB :=
  match findImage db iid with
  | none => .error .NotFound
  | some img =>
    match img.original with
    | none =>
      let dead := deletedIds db iid
      let images1 := db.images.filter (fun i => !(idMem dead i.id))
      let crops1 := db.crops.filter (fun c => !(idMem dead c.image_id))
      let sizes1 := db.sizes.filter (fun s =>
        s.size_set.isSome || images1.any (fun i => decide (i.size = some s.id)))
      let files1 := match img.image with
        | some p => removeFile db.files p
        | none => db.files
      .ok { db with images := images1, crops := crops1, sizes := sizes1, files := files1 }
    | some _ =>
      let images1 := db.images.filter (fun i => decide (i.id ≠ iid))
      let crops1 := db.crops.filter (fun c => decide (c.image_id ≠ iid))
      let sizes1 := match img.size with
        | none => db.sizes
        | some sid =>
          db.sizes.filter (fun s =>
            !(decide (s.id = sid) && s.size_set.isNone &&
              !(images1.any (fun i => decide (i.size = some sid)))))
      .ok { db with images := images1, crops := crops1, sizes := sizes1 }

/-- State of a Django model instance as far as
`CropDusterImageFileDescriptor.__set__` observes it: the value stored under
the field's name in `instance.__dict__` (`none` when the key is absent —
`instance.__dict__.get(self.field.name)`, fields.py line 155) and the two
dimension fields the field maintains. -/
structure ModelInstance where
  file : Option String
  width : Option Int
  height : Option Int
  deriving DecidableEq

/-- The `self.field.update_dimension_fields(instance, force=True)` call of
fields.py line 160: re-reads the instance's (new) file and stores its
dimensions.  Probing the file is an external effect, abstracted as the
function `dims` from the file value to the dimension pair. -/
def update_dimension_fields (dims : Option String → Option Int × Option Int)
    (inst : ModelInstance) : ModelInstance :=
  { inst with width := (dims inst.file).1, height := (dims inst.file).2 }

/-- Embedding of `CropDusterImageFileDescriptor.__set__` (fields.py lines
154-160): capture the previous file value, store the new value (the
`super(ImageFileDescriptor, self).__set__` call deliberately skips
`ImageFileDescriptor`'s own unconditional dimension update and only
stores), then recompute the dimension fields only when a previous file
exists (`previous_file is not None`) and differs from the new value
(`previous_file != value`). -/
def descriptor_set (dims : Option String → Option Int × Option Int)
    (inst : ModelInstance) (value : Option String) : ModelInstance :=
  let previous_file := inst.file
  let inst1 := { inst with file := value }
  match previous_file with
  | none => inst1
  | some p => if value ≠ some p then update_dimension_fields dims inst1 else inst1

/-- Python's float literal `1.6` as stored in an IEEE binary64
`FloatField`: the representable value nearest 1.6, namely
3602879701896397 / 2^51, slightly below the rational 8/5.  The tests'
`round(100/1.6)` therefore rounds a quotient slightly below 62.5. -/
def pyFloat_1_6 : ℚ := 3602879701896397 / 2251799813685248

/-- Python's float literal `1.3` as stored in an IEEE binary64
`FloatField`: the representable value nearest 1.3, namely
5854679515581645 / 2^52. -/
def pyFloat_1_3 : ℚ := 5854679515581645 / 4503599627370496

/-- The `Thumbnail` size of the tests' `create_size_sets`. -/
def thumbSpec : ImageSize :=
  { id := 1, name := "Thumbnail", slug := "thumb", width := some 60,
    height := some 60, aspect_ratio := none, auto_crop := true,
    retina := true, size_set := some 1 }

/-- The `Banner` size of the tests' `create_size_sets`. -/
def bannerSpec : ImageSize :=
  { id := 2, name := "Banner", slug := "banner", width := some 1024,
    height := none, aspect_ratio := some pyFloat_1_3, auto_crop := false,
    retina := false, size_set := some 1 }

/-- The `Headline` size of the tests' `create_size_sets`. -/
def headlineSpec : ImageSize :=
  { id := 3, name := "Headline", slug := "headline", width := some 500,
    height := some 400, aspect_ratio := none, auto_crop := true,
    retina := true, size_set := some 2 }

/-- The `Facebook` size set of the tests' `create_size_sets`. -/
def fbSet : ImageSizeSet := { id := 1, name := "Facebook", slug := "facebook" }

/-- The `Mobile` size set of the tests' `create_size_sets`. -/
def mobileSet : ImageSizeSet := { id := 2, name := "Mobile", slug := "mobile" }

/-- The saved original image of the tests' `get_test_image`, with the
copied test file `img1.jpg.test.jpg` as its stored file. -/
def testOriginal : Image :=
  { id := 1, image := some (.original "img1.jpg.test.jpg"), width := some 800,
    height := some 600, size := none, original := none, pending := none }

/-- The persisted state after the tests' `get_test_image` and
`create_size_sets`: one saved original, the three sizes, the two size sets,
no crops, and the uploaded source file. -/
def dbFB : DB :=
  { images := [testOriginal],
    sizes := [thumbSpec, bannerSpec, headlineSpec],
    size_sets := [fbSet, mobileSet],
    crops := [],
    files := [(.original "img1.jpg.test.jpg", .source 0)],
    next_id := 2 }

/-- A width-only ImageSize, as in the tests' `test_variable_sizes`. -/
def widthOnlySpec : ImageSize :=
  { id := 9, name := "width_only", slug := "width_only", width := some 100,
    height := none, aspect_ratio := none, auto_crop := false,
    retina := false, size_set := none }

/-- The `1` size of the tests' `test_calc_sizes`: width 100, aspect ratio
the stored float 1.6, height missing. -/
def calcSpec1 : ImageSize :=
  { id := 11, name := "1", slug := "1", width := some 100, height := none,
    aspect_ratio := some pyFloat_1_6, auto_crop := false, retina := false,
    size_set := none }

/-- A manual derived stub with a Crop assigned but no ImageSize, the
situation of the tests' `test_crop`. -/
def manualStub : Image :=
  { id := 2, image := none, width := none, height := none,
    size := none, original := some 1, pending := none }

/-- The persisted state of `test_crop`: the saved original, the saved
manual stub, and the stub's Crop. -/
def dbManual : DB :=
  { images := [testOriginal, manualStub],
    sizes := [],
    size_sets := [],
    crops := [{ image_id := 2, box := { x1 := 100, y1 := 100, x2 := 300, y2 := 300 } }],
    files := [(.original "img1.jpg.test.jpg", .source 0)],
    next_id := 3 }

/-- The 50 by 50 `test` size of the tests' `test_render_original`. -/
def testSize50 : ImageSize :=
  { id := 4, name := "test", slug := "test", width := some 50,
    height := some 50, aspect_ratio := none, auto_crop := true,
    retina := false, size_set := none }

/-- The original of `test_render_original` after `cd1.size = size`: a root
Image (no parent) that nevertheless has an ImageSize assigned. -/
def sizedOriginal : Image :=
  { testOriginal with size := some 4 }

/-- The persisted state of `test_render_original` just before rendering,
with a stored Crop for the original so the render uses it. -/
def dbRenderOrig : DB :=
  { images := [sizedOriginal],
    sizes := [testSize50],
    size_sets := [],
    crops := [{ image_id := 1, box := { x1 := 0, y1 := 0, x2 := 800, y2 := 600 } }],
    files := [(.original "img1.jpg.test.jpg", .source 0)],
    next_id := 2 }

/-- A saved derived stub governed by the `thumb` size, child of the
original, as produced by `add_size_set` and then saved. -/
def derivedStub : Image :=
  { id := 2, image := none, width := none, height := none,
    size := some 1, original := some 1, pending := none }

/-- The persisted state of `test_render_derived` just before rendering the
derived image, with a stored Crop for it. -/
def dbDerived : DB :=
  { images := [testOriginal, derivedStub],
    sizes := [thumbSpec, bannerSpec, headlineSpec],
    size_sets := [fbSet, mobileSet],
    crops := [{ image_id := 2, box := { x1 := 100, y1 := 0, x2 := 700, y2 := 600 } }],
    files := [(.original "img1.jpg.test.jpg", .source 0)],
    next_id := 3 }

/-- A derived child of the original governed by `thumb`, rendered and
saved, as in `test_delete`. -/
def childA : Image :=
  { id := 2, image := some (.derived "img1.jpg.test.jpg" "thumb"),
    width := some 60, height := some 60, size := some 1, original := some 1,
    pending := none }

/-- A derived child of the original governed by `banner`, rendered and
saved, as in `test_delete`. -/
def childB : Image :=
  { id := 3, image := some (.derived "img1.jpg.test.jpg" "banner"),
    width := some 1024, height := some 788, size := some 2, original := some 1,
    pending := none }

/-- A second-level derived image: a `thumb` child of `childA`, as produced
by the second `add_size_set` round of `test_delete`. -/
def grandA : Image :=
  { id := 4, image := some (.derived "img1.jpg.test.jpg.thumb" "thumb"),
    width := some 60, height := some 60, size := some 1, original := some 2,
    pending := none }

/-- A second-level derived image: a `banner` child of `childA`. -/
def grandB : Image :=
  { id := 5, image := some (.derived "img1.jpg.test.jpg.thumb" "banner"),
    width := some 1024, height := some 788, size := some 2, original := some 2,
    pending := none }

/-- The persisted state of `test_delete` just before `cd1.delete()`: the
original, two rendered children, two rendered grandchildren and their
Crops. -/
def dbCascade : DB :=
  { images := [testOriginal, childA, childB, grandA, grandB],
    sizes := [thumbSpec, bannerSpec, headlineSpec],
    size_sets := [fbSet, mobileSet],
    crops := [{ image_id := 2, box := { x1 := 100, y1 := 0, x2 := 700, y2 := 600 } },
              { image_id := 3, box := { x1 := 0, y1 := 0, x2 := 800, y2 := 615 } },
              { image_id := 4, box := { x1 := 0, y1 := 0, x2 := 60, y2 := 60 } },
              { image_id := 5, box := { x1 := 0, y1 := 7, x2 := 60, y2 := 53 } }],
    files := [(.original "img1.jpg.test.jpg", .source 0)],
    next_id := 6 }

/-- The manual `testing` size of `test_manual_derive`: no owning size set. -/
def manualSize : ImageSize :=
  { id := 7, name := "testing", slug := "testing", width := some 100,
    height := some 100, aspect_ratio := none, auto_crop := true,
    retina := true, size_set := none }

/-- The saved manual derived image of `test_manual_derive`, governed by the
manual `testing` size. -/
def manImg : Image :=
  { id := 2, image := some (.derived "img1.jpg.test.jpg" "testing"),
    width := some 100, height := some 100, size := some 7, original := some 1,
    pending := none }

/-- A second image that also references the manual `testing` size. -/
def otherImg : Image :=
  { id := 3, image := some (.derived "img1.jpg.test.jpg" "3"),
    width := some 100, height := some 100, size := some 7, original := some 1,
    pending := none }

/-- The persisted state of `test_manual_derive` just before `img.delete()`:
the manual size is referenced only by `manImg`. -/
def dbManualOnly : DB :=
  { images := [testOriginal, manImg],
    sizes := [manualSize],
    size_sets := [],
    crops := [{ image_id := 2, box := { x1 := 0, y1 := 0, x2 := 200, y2 := 200 } }],
    files := [(.original "img1.jpg.test.jpg", .source 0)],
    next_id := 3 }

/-- A variant state in which a second Image still references the manual
size, so deleting `manImg` must leave the size in place. -/
def dbManualShared : DB :=
  { images := [testOriginal, manImg, otherImg],
    sizes := [manualSize],
    size_sets := [],
    crops := [{ image_id := 2, box := { x1 := 0, y1 := 0, x2 := 200, y2 := 200 } }],
    files := [(.original "img1.jpg.test.jpg", .source 0)],
    next_id := 4 }

end Cropduster

namespace Cropduster

/-- Membership in `idMem` terms is plain list membership. -/
theorem idMem_iff (l : List Nat) (x : Nat) : idMem l x = true ↔ x ∈ l := by
  rw [idMem, List.any_eq_true]
  constructor
  · rintro ⟨d, hd, hdx⟩
    simp only [decide_eq_true_eq] at hdx
    exact hdx ▸ hd
  · intro hx
    exact ⟨x, hx, by simp⟩

/-- Writing a file and reading it back at the same path yields the written
content. -/
theorem lookupFile_setFile_self (fs : List (PathT × FileContent)) (p : PathT)
    (c : FileContent) : lookupFile (setFile fs p c) p = some c := by
  induction fs with
  | nil => simp [setFile, lookupFile]
  | cons e t ih =>
    by_cases h : e.1 = p
    · simp [setFile, h, lookupFile]
    · simp only [setFile, if_neg h, lookupFile, List.find?]
      simp only [lookupFile] at ih
      simpa [h] using ih

/-- Writing a file leaves the content at every other path unchanged. -/
theorem lookupFile_setFile_ne (fs : List (PathT × FileContent)) (p q : PathT)
    (c : FileContent) (hne : q ≠ p) :
    lookupFile (setFile fs p c) q = lookupFile fs q := by
  have hne1 : p ≠ q := Ne.symm hne
  induction fs with
  | nil => simp [setFile, lookupFile, List.find?, hne1]
  | cons e t ih =>
    by_cases h : e.1 = p
    · have h2 : e.1 ≠ q := h ▸ hne1
      simp only [setFile, if_pos h, lookupFile, List.find?]
      rw [decide_eq_false hne1, decide_eq_false h2]
    · simp only [setFile, if_neg h, lookupFile, List.find?] at ih ⊢
      cases hd : decide (e.1 = q) with
      | true => rfl
      | false => exact ih

/-- An original with no persisted derived Images has none with any slug. -/
theorem hasDerivedWithSlug_eq_false {db : DB} {origId : Nat}
    (h : derivedImages db origId = []) (sl : String) :
    hasDerivedWithSlug db origId sl = false := by
  rw [derivedImages, List.filter_eq_nil_iff] at h
  rw [hasDerivedWithSlug, List.any_eq_false]
  intro i hi
  have hne := h i hi
  simp only [decide_eq_true_eq] at hne
  simp [hne]

/-- C3: SizeSpec resolution fails with `InsufficientSizeData` exactly when
fewer than two of width, height and aspect ratio are known at resolution
time; with at least two known it succeeds, so a missing dimension is never
silently defaulted. -/
theorem resolve_insufficient (s : ImageSize) :
    (resolve s = .error .InsufficientSizeData ↔ knownCount s < 2) ∧
    (2 ≤ knownCount s → ∃ w h a, resolve s = .ok (w, h, a)) := by
  obtain ⟨i, n, sl, w0, h0, a0, ac, rt, ss⟩ := s
  cases w0 <;> cases h0 <;> cases a0 <;> simp [resolve, knownCount]

/-- Witness for C3: a width-only size fails resolution, a width-and-height
size resolves. -/
theorem resolve_insufficient_witness :
    resolve widthOnlySpec = .error .InsufficientSizeData ∧
    ∃ w h a, resolve thumbSpec = .ok (w, h, a) :=
  ⟨(resolve_insufficient widthOnlySpec).1.mpr (by decide),
   (resolve_insufficient thumbSpec).2 (by decide)⟩

unseal Rat.mul Rat.add Rat.inv Rat.sub in
/-- C6: resolving the tests' size `1` (width 100, stored aspect ratio the
float 1.6, height missing) yields height 62: the stored binary64 value of
`1.6` is slightly above 8/5, so the quotient is slightly below 62.5 and
round-half-away-from-zero rounds it down to 62. -/
theorem get_height_calcSpec1 : get_height calcSpec1 = .ok 62 := by decide

/-- C8: `add_size_set` with a name or slug matching no size set fails with
`NotFound`; the operation returns no stub list and, being read-only on the
store (it persists nothing even on success), creates no derived Image. -/
theorem add_size_set_notfound (db : DB) (origId : Nat) (nm sl : Option String)
    (h : lookupSizeSet db nm sl = none) :
    add_size_set db origId nm sl = .error .NotFound := by
  rw [add_size_set, h]

/-- Witness for C8: the tests' `add_size_set(name='foobar')`. -/
theorem add_size_set_notfound_witness :
    add_size_set dbFB 1 (some "foobar") none = .error .NotFound :=
  add_size_set_notfound dbFB 1 (some "foobar") none (by decide)

/-- C10: `CropDusterImageFileDescriptor.__set__` recomputes the dimension
fields only when a previous file exists and the new value differs from it;
when no previous file exists or the assigned value equals the current one,
only the file entry is stored and width and height are untouched. -/
theorem descriptor_set_dimensions
    (dims : Option String → Option Int × Option Int)
    (inst : ModelInstance) (value : Option String) :
    (inst.file = none ∨ value = inst.file →
      descriptor_set dims inst value = { inst with file := value }) ∧
    (∀ p, inst.file = some p → value ≠ some p →
      descriptor_set dims inst value =
        update_dimension_fields dims { inst with file := value }) := by
  constructor
  · intro h
    cases h with
    | inl h => simp [descriptor_set, h]
    | inr h =>
      cases hf : inst.file with
      | none => simp [descriptor_set, hf]
      | some p => simp [descriptor_set, hf, h ▸ hf]
  · intro p hp hne
    simp [descriptor_set, hp, hne]

/-- Witness for C10: re-assigning the same file name leaves the dimensions
unchanged, assigning a different name recomputes them. -/
theorem descriptor_set_dimensions_witness :
    (descriptor_set (fun _ => (some 10, some 20))
        { file := some "a.jpg", width := some 1, height := some 2 } (some "a.jpg") =
      { file := some "a.jpg", width := some 1, height := some 2 }) ∧
    (descriptor_set (fun _ => (some 10, some 20))
        { file := some "a.jpg", width := some 1, height := some 2 } (some "b.jpg") =
      update_dimension_fields (fun _ => (some 10, some 20))
        { file := some "b.jpg", width := some 1, height := some 2 }) :=
  ⟨(descriptor_set_dimensions (fun _ => (some 10, some 20))
      { file := some "a.jpg", width := some 1, height := some 2 } (some "a.jpg")).1
      (Or.inr rfl),
   (descriptor_set_dimensions (fun _ => (some 10, some 20))
      { file := some "a.jpg", width := some 1, height := some 2 } (some "b.jpg")).2
      "a.jpg" rfl (by decide)⟩

end Cropduster

namespace Cropduster

/-- C2 counterexample: `new_derived_image` creates an Image with a parent
reference but no ImageSize, so "size is null iff original is null" fails on
it (spec section 4.4 itself: a manual stub has "no SizeSpec assigned yet",
and `test_crop` renders such a stub). -/
theorem new_derived_image_breaks_iff :
    ¬(((new_derived_image 1).size = none) ↔ ((new_derived_image 1).original = none)) := by
  decide

/-- C2 (amended): the root original as created has both `size` and
`original` null, and every stub returned by `add_size_set` has both
non-null; but the biconditional is not an invariant of every Image, since
`new_derived_image` returns a stub with a parent and no ImageSize. -/
theorem original_xor_derived_amended :
    ((mkOriginal "img1.jpg.test.jpg" 800 600).size = none ∧
      (mkOriginal "img1.jpg.test.jpg" 800 600).original = none) ∧
    (∀ db origId nm sl l, add_size_set db origId nm sl = .ok l →
      ∀ i ∈ l, i.size.isSome = true ∧ i.original = some origId) := by
  refine ⟨⟨rfl, rfl⟩, ?_⟩
  intro db origId nm sl l h i hi
  rw [add_size_set] at h
  cases hss : lookupSizeSet db nm sl with
  | none => rw [hss] at h; cases h
  | some ss =>
    rw [hss] at h
    injection h with h
    subst h
    rw [List.mem_filterMap] at hi
    obtain ⟨s, _, hs⟩ := hi
    by_cases hd : hasDerivedWithSlug db origId s.slug
    · rw [if_pos hd] at hs; cases hs
    · rw [if_neg hd] at hs
      injection hs with hs
      subst hs
      exact ⟨rfl, rfl⟩

/-- Witness for the amended C2: the stubs of the Facebook reconciliation
have an ImageSize and the original as parent. -/
theorem original_xor_derived_amended_witness :
    (mkStub 1 thumbSpec).size.isSome = true ∧ (mkStub 1 thumbSpec).original = some 1 :=
  original_xor_derived_amended.2 dbFB 1 (some "Facebook") none
    [mkStub 1 thumbSpec, mkStub 1 bannerSpec] (by decide) (mkStub 1 thumbSpec) (by decide)

/-- C4 counterexample: the claim identifies "the original" as "one whose
`size` is null", but a manual derived stub with no ImageSize and a stored
Crop (the `test_crop` situation) renders without force and without any
`ProtectedOriginal` error, so a null `size` does not trigger protection. -/
theorem render_size_null_not_protected :
    manualStub.size = none ∧ manualStub.original ≠ none ∧
    render dbManual manualStub false ≠ .error .ProtectedOriginal := by
  refine ⟨rfl, by decide, by decide⟩

end Cropduster

namespace Cropduster

/-- Reduction of a forced render of the root original once its file, its
dimensions, its size and a stored crop are all at hand: the pending buffer
is produced and the store is returned unchanged. -/
theorem render_root_forced (db : DB) (img : Image) (path : PathT)
    (content : FileContent) (sid : Nat) (s : ImageSize) (w ht : Int) (a : ℚ)
    (ow oh : Int) (cr : Crop)
    (h : img.original = none)
    (hpath : img.image = some path)
    (hfile : lookupFile db.files path = some content)
    (hw : img.width = some ow) (hh2 : img.height = some oh)
    (hsid : img.size = some sid) (hs : findSize db sid = some s)
    (hres : resolveRender s ((ow : ℚ) / (oh : ℚ)) = .ok (w, ht, a))
    (hwpos : 0 < w) (hhpos : 0 < ht)
    (hcr : findCrop db img.id = some cr) :
    render db img true = .ok (db, { img with
      width := some w, height := some ht,
      pending := some (.rendered content cr.box w ht) }) := by
  rw [render, h]
  simp only [hpath, hfile, hw, hh2, hsid, hs, hres]
  have hcond : ¬(w ≤ 0 ∨ ht ≤ 0) := by omega
  rw [if_neg hcond, renderBox, hcr]
  rfl

/-- C4 (amended): rendering the root original — the Image whose `original`
parent reference is null, which is how the code identifies it
(`test_render_original` assigns a size to the original and still gets the
error) — without force fails with `ProtectedOriginal`; with force it
succeeds, producing the pending buffer and touching nothing persisted. -/
theorem render_protects_root (db : DB) (img : Image) (h : img.original = none) :
    render db img false = .error .ProtectedOriginal ∧
    (∀ path content sid s w ht a ow oh cr,
      img.image = some path → lookupFile db.files path = some content →
      img.width = some ow → img.height = some oh →
      img.size = some sid → findSize db sid = some s →
      resolveRender s ((ow : ℚ) / (oh : ℚ)) = .ok (w, ht, a) →
      0 < w → 0 < ht → findCrop db img.id = some cr →
      render db img true = .ok (db, { img with
        width := some w, height := some ht,
        pending := some (.rendered content cr.box w ht) })) := by
  constructor
  · rw [render, h]
    rfl
  · intro path content sid s w ht a ow oh cr hpath hfile hw hh2 hsid hs hres hwpos hhpos hcr
    exact render_root_forced db img path content sid s w ht a ow oh cr
      h hpath hfile hw hh2 hsid hs hres hwpos hhpos hcr

end Cropduster

namespace Cropduster

/-- Witness for the amended C4: the `test_render_original` state — render
without force raises the protection error, with force it succeeds. -/
theorem render_protects_root_witness :
    render dbRenderOrig sizedOriginal false = .error .ProtectedOriginal ∧
    render dbRenderOrig sizedOriginal true = .ok (dbRenderOrig, { sizedOriginal with
      width := some 50, height := some 50,
      pending := some (.rendered (.source 0)
        { x1 := 0, y1 := 0, x2 := 800, y2 := 600 } 50 50) }) :=
  ⟨(render_protects_root dbRenderOrig sizedOriginal rfl).1,
   (render_protects_root dbRenderOrig sizedOriginal rfl).2
     (.original "img1.jpg.test.jpg") (.source 0) 4 testSize50 50 50
     (round2 (((50 : Int) : ℚ) / ((50 : Int) : ℚ))) 800 600
     { image_id := 1, box := { x1 := 0, y1 := 0, x2 := 800, y2 := 600 } }
     rfl (by decide) rfl rfl rfl (by decide) rfl (by decide) (by decide) (by decide)⟩

/-- C5: a forced render of the root original computes the new buffer purely
in memory: the store is returned unchanged (in particular the source file
still holds its original content), and only the explicit `save` commit
overwrites the persisted file, after which its content hash differs from
the original content. -/
theorem forced_render_commits_on_save (db : DB) (img : Image) (path : PathT)
    (n : Nat) (sid : Nat) (s : ImageSize) (w ht : Int) (a : ℚ) (ow oh : Int)
    (cr : Crop)
    (h : img.original = none)
    (hpath : img.image = some path)
    (hfile : lookupFile db.files path = some (.source n))
    (hw : img.width = some ow) (hh2 : img.height = some oh)
    (hsid : img.size = some sid) (hs : findSize db sid = some s)
    (hres : resolveRender s ((ow : ℚ) / (oh : ℚ)) = .ok (w, ht, a))
    (hwpos : 0 < w) (hhpos : 0 < ht)
    (hcr : findCrop db img.id = some cr) :
    ∃ img1,
      render db img true = .ok (db, img1) ∧
      lookupFile db.files path = some (.source n) ∧
      img1.image = some path ∧
      lookupFile (save_image db img1).files path =
        some (.rendered (.source n) cr.box w ht) ∧
      FileContent.rendered (.source n) cr.box w ht ≠ .source n := by
  have hrender := render_root_forced db img path (.source n) sid s w ht a ow oh cr
    h hpath hfile hw hh2 hsid hs hres hwpos hhpos hcr
  refine ⟨_, hrender, hfile, hpath, ?_, by simp⟩
  simp only [save_image, hpath]
  exact lookupFile_setFile_self db.files path _

end Cropduster

namespace Cropduster

/-- Witness for C5: forcing a render of the sized original leaves the
stored source file untouched until the save, which overwrites it with the
rendered buffer. -/
theorem forced_render_commits_on_save_witness :
    ∃ img1,
      render dbRenderOrig sizedOriginal true = .ok (dbRenderOrig, img1) ∧
      lookupFile dbRenderOrig.files (.original "img1.jpg.test.jpg") =
        some (.source 0) ∧
      img1.image = some (.original "img1.jpg.test.jpg") ∧
      lookupFile (save_image dbRenderOrig img1).files (.original "img1.jpg.test.jpg") =
        some (.rendered (.source 0) { x1 := 0, y1 := 0, x2 := 800, y2 := 600 } 50 50) ∧
      FileContent.rendered (.source 0) { x1 := 0, y1 := 0, x2 := 800, y2 := 600 } 50 50 ≠
        .source 0 :=
  forced_render_commits_on_save dbRenderOrig sizedOriginal
    (.original "img1.jpg.test.jpg") 0 4 testSize50 50 50
    (round2 (((50 : Int) : ℚ) / ((50 : Int) : ℚ))) 800 600
    { image_id := 1, box := { x1 := 0, y1 := 0, x2 := 800, y2 := 600 } }
    rfl rfl (by decide) rfl rfl rfl (by decide) rfl (by decide) (by decide) (by decide)

/-- C9: rendering a derived Image reads the root original's file but never
writes it: the render returns the store unchanged, the derived image is
written under a path distinct from the original's, and after the save the
original's path still holds its previous content. -/
theorem derived_render_preserves_original (db : DB) (img orig : Image)
    (oid : Nat) (oname : String) (oc : FileContent) (sid : Nat) (s : ImageSize)
    (w ht : Int) (a : ℚ) (ow oh : Int) (cr : Crop)
    (h : img.original = some oid)
    (ho : findImage db oid = some orig)
    (hop : orig.image = some (.original oname))
    (hoc : lookupFile db.files (.original oname) = some oc)
    (hw : orig.width = some ow) (hh2 : orig.height = some oh)
    (hsid : img.size = some sid) (hs : findSize db sid = some s)
    (hres : resolveRender s ((ow : ℚ) / (oh : ℚ)) = .ok (w, ht, a))
    (hwpos : 0 < w) (hhpos : 0 < ht)
    (hcr : findCrop db img.id = some cr) :
    ∃ img1,
      render db img false = .ok (db, img1) ∧
      img1.image = some (.derived oname s.slug) ∧
      PathT.derived oname s.slug ≠ .original oname ∧
      lookupFile (save_image db img1).files (.original oname) = some oc := by
  have hrender : render db img false = .ok (db, { img with
      width := some w, height := some ht,
      image := some (.derived oname s.slug),
      pending := some (.rendered oc cr.box w ht) }) := by
    rw [render, h]
    simp only [ho, hop, hoc, hw, hh2, hsid, hs, hres]
    have hcond : ¬(w ≤ 0 ∨ ht ≤ 0) := by omega
    rw [if_neg hcond, renderBox, hcr]
    rfl
  refine ⟨_, hrender, rfl, by simp, ?_⟩
  simp only [save_image]
  rw [lookupFile_setFile_ne]
  · exact hoc
  · simp

end Cropduster

namespace Cropduster

/-- Witness for C9: rendering the saved `thumb` stub of the test original
writes a distinct derived path and leaves the original's file content in
place after the save. -/
theorem derived_render_preserves_original_witness :
    ∃ img1,
      render dbDerived derivedStub false = .ok (dbDerived, img1) ∧
      img1.image = some (.derived "img1.jpg.test.jpg" "thumb") ∧
      PathT.derived "img1.jpg.test.jpg" "thumb" ≠ .original "img1.jpg.test.jpg" ∧
      lookupFile (save_image dbDerived img1).files (.original "img1.jpg.test.jpg") =
        some (.source 0) :=
  derived_render_preserves_original dbDerived derivedStub testOriginal 1
    "img1.jpg.test.jpg" (.source 0) 1 thumbSpec 60 60
    (round2 (((60 : Int) : ℚ) / ((60 : Int) : ℚ))) 800 600
    { image_id := 2, box := { x1 := 100, y1 := 0, x2 := 700, y2 := 600 } }
    rfl (by decide) rfl (by decide) rfl rfl rfl (by decide) rfl (by decide) (by decide)
    (by decide)

end Cropduster

namespace Cropduster

/-- Reduction of `add_size_set` once the size-set lookup succeeds. -/
theorem add_size_set_eq_of_lookup (db : DB) (origId : Nat) (nm sl : Option String)
    (ss : ImageSizeSet) (h : lookupSizeSet db nm sl = some ss) :
    add_size_set db origId nm sl =
      .ok ((specsOf db ss.id).filterMap (fun s =>
        if hasDerivedWithSlug db origId s.slug then none
        else some (mkStub origId s))) := by
  rw [add_size_set, h]

/-- The stub of a size has the original as parent. -/
theorem mkStub_original (origId : Nat) (s : ImageSize) :
    (mkStub origId s).original = some origId := rfl

/-- The stub of a size is governed by that size. -/
theorem mkStub_size (origId : Nat) (s : ImageSize) :
    (mkStub origId s).size = some s.id := rfl

/-- C1: on an original with no persisted derived Images, `add_size_set`
with a set of exactly two sizes returns exactly those two stubs, each
unsaved and with no stored file; the store still counts zero derived rows
until the caller saves them and two afterwards; and a second identical call
then returns the empty list. -/
theorem add_size_set_reconciliation
    (db : DB) (origId : Nat) (nm : String) (ss : ImageSizeSet) (s1 s2 : ImageSize)
    (h_lookup : lookupSizeSet db (some nm) none = some ss)
    (h_specs : specsOf db ss.id = [s1, s2])
    (h_find1 : findSize db s1.id = some s1)
    (h_find2 : findSize db s2.id = some s2)
    (h_none : derivedImages db origId = []) :
    add_size_set db origId (some nm) none = .ok [mkStub origId s1, mkStub origId s2] ∧
    (mkStub origId s1).image = none ∧ (mkStub origId s2).image = none ∧
    derivedCount db origId = 0 ∧
    derivedCount (save_image (save_image db (mkStub origId s1)) (mkStub origId s2)) origId = 2 ∧
    add_size_set (save_image (save_image db (mkStub origId s1)) (mkStub origId s2))
      origId (some nm) none = .ok [] := by
  have hd1 := hasDerivedWithSlug_eq_false h_none s1.slug
  have hd2 := hasDerivedWithSlug_eq_false h_none s2.slug
  have h_none' : db.images.filter (fun i => decide (i.original = some origId)) = [] := by
    rw [derivedImages] at h_none
    exact h_none
  refine ⟨?_, rfl, rfl, ?_, ?_, ?_⟩
  · rw [add_size_set_eq_of_lookup db origId (some nm) none ss h_lookup, h_specs]
    simp [hd1, hd2]
  · rw [derivedCount, h_none]
    rfl
  · simp only [derivedCount, derivedImages, save_image, mkStub]
    simp [List.filter_append, h_none']
  · have h_lookup2 : lookupSizeSet
        (save_image (save_image db (mkStub origId s1)) (mkStub origId s2))
        (some nm) none = some ss := h_lookup
    have h_specs2 : specsOf
        (save_image (save_image db (mkStub origId s1)) (mkStub origId s2)) ss.id =
        [s1, s2] := h_specs
    have hf1 : findSize
        (save_image (save_image db (mkStub origId s1)) (mkStub origId s2)) s1.id =
        some s1 := h_find1
    have hf2 : findSize
        (save_image (save_image db (mkStub origId s1)) (mkStub origId s2)) s2.id =
        some s2 := h_find2
    have e1 : hasDerivedWithSlug
        (save_image (save_image db (mkStub origId s1)) (mkStub origId s2))
        origId s1.slug = true := by
      rw [hasDerivedWithSlug, List.any_eq_true]
      refine ⟨{ mkStub origId s1 with id := db.next_id, pending := none }, ?_, ?_⟩
      · simp [save_image, mkStub]
      · dsimp only
        simp only [mkStub_original, mkStub_size]
        rw [hf1]
        simp
    have e2 : hasDerivedWithSlug
        (save_image (save_image db (mkStub origId s1)) (mkStub origId s2))
        origId s2.slug = true := by
      rw [hasDerivedWithSlug, List.any_eq_true]
      refine ⟨{ mkStub origId s2 with
          id := (save_image db (mkStub origId s1)).next_id, pending := none }, ?_, ?_⟩
      · simp [save_image, mkStub]
      · dsimp only
        simp only [mkStub_original, mkStub_size]
        rw [hf2]
        simp
    rw [add_size_set_eq_of_lookup _ origId (some nm) none ss h_lookup2, h_specs2]
    simp [e1, e2]

end Cropduster

namespace Cropduster

unseal Rat.mul Rat.add Rat.inv Rat.sub in
/-- Witness for C1: the Facebook reconciliation of `test_size_sets` — two
stubs, nothing persisted, two rows after saving, and an empty second
round. -/
theorem add_size_set_reconciliation_witness :
    add_size_set dbFB 1 (some "Facebook") none =
      .ok [mkStub 1 thumbSpec, mkStub 1 bannerSpec] ∧
    (mkStub 1 thumbSpec).image = none ∧ (mkStub 1 bannerSpec).image = none ∧
    derivedCount dbFB 1 = 0 ∧
    derivedCount (save_image (save_image dbFB (mkStub 1 thumbSpec))
      (mkStub 1 bannerSpec)) 1 = 2 ∧
    add_size_set (save_image (save_image dbFB (mkStub 1 thumbSpec))
      (mkStub 1 bannerSpec)) 1 (some "Facebook") none = .ok [] :=
  add_size_set_reconciliation dbFB 1 "Facebook" fbSet thumbSpec bannerSpec
    (by decide) (by decide) (by decide) (by decide) (by decide)

end Cropduster

namespace Cropduster

/-- C7: deleting the root original cascades — in the resulting store no
Image of the deleted subtree remains (in particular no direct child of the
root) and no Crop of the subtree remains; deleting a derived Image whose
ImageSize is manual removes that size exactly when no other Image still
references it, and leaves it in place when one does. -/
theorem delete_cascade_and_manual_size :
    (∀ db iid img, findImage db iid = some img → img.original = none →
      ∃ db1, delete_image db iid = .ok db1 ∧
        (∀ i ∈ db1.images, i.id ∉ deletedIds db iid) ∧
        (∀ i ∈ db1.images, i.original ≠ some iid) ∧
        (∀ c ∈ db1.crops, c.image_id ∉ deletedIds db iid)) ∧
    (∀ db iid img pid sid s, findImage db iid = some img →
      img.original = some pid → img.size = some sid →
      s ∈ db.sizes → s.id = sid → s.size_set = none →
      ∃ db1, delete_image db iid = .ok db1 ∧
        ((∀ j ∈ db.images, j.id ≠ iid → j.size ≠ some sid) → s ∉ db1.sizes) ∧
        ((∃ j ∈ db.images, j.id ≠ iid ∧ j.size = some sid) → s ∈ db1.sizes)) := by
  constructor
  · intro db iid img hfind horig
    have hidimg : img.id = iid := by
      have := List.find?_some hfind
      simpa using this
    have hroot : ∀ k, inSubtree db k img iid = true := by
      intro k
      cases k with
      | zero => simp [inSubtree, hidimg]
      | succ k => rw [inSubtree]; simp [hidimg]
    rw [delete_image, hfind]
    dsimp only
    rw [horig]
    dsimp only
    refine ⟨_, rfl, ?_, ?_, ?_⟩
    · intro i hi
      rw [List.mem_filter] at hi
      have := hi.2
      simp only [Bool.not_eq_true'] at this
      intro hmem
      rw [← idMem_iff] at hmem
      rw [hmem] at this
      cases this
    · intro i hi heq
      rw [List.mem_filter] at hi
      obtain ⟨hmem, hpass⟩ := hi
      have hin : inSubtree db db.images.length i iid = true := by
        obtain ⟨k, hk⟩ : ∃ k, db.images.length = k + 1 :=
          ⟨db.images.length - 1, by
            have : 0 < db.images.length :=
              List.length_pos.mpr (List.ne_nil_of_mem hmem)
            omega⟩
        rw [hk, inSubtree, heq]
        dsimp only
        rw [hfind]
        simp [hroot k]
      have hdead : i.id ∈ deletedIds db iid := by
        rw [deletedIds]
        exact List.mem_map_of_mem _ (List.mem_filter.mpr ⟨hmem, hin⟩)
      rw [← idMem_iff] at hdead
      rw [hdead] at hpass
      cases hpass
    · intro c hc
      rw [List.mem_filter] at hc
      have := hc.2
      simp only [Bool.not_eq_true'] at this
      intro hmem
      rw [← idMem_iff] at hmem
      rw [hmem] at this
      cases this
  · intro db iid img pid sid s hfind horig hsize hmem hid hmanual
    rw [delete_image, hfind]
    dsimp only
    rw [horig]
    dsimp only
    rw [hsize]
    dsimp only
    refine ⟨_, rfl, ?_, ?_⟩
    · intro hno hcontra
      rw [List.mem_filter] at hcontra
      obtain ⟨-, hpred⟩ := hcontra
      simp [hid, hmanual] at hpred
      obtain ⟨x, hx, hxne, hxs⟩ := hpred
      exact hno x hx hxne hxs
    · rintro ⟨j, hj, hjne, hjs⟩
      rw [List.mem_filter]
      refine ⟨hmem, ?_⟩
      simp [hid, hmanual]
      exact ⟨j, hj, hjne, hjs⟩

end Cropduster

namespace Cropduster

/-- Witness for C7: the `test_delete` cascade state (five images, four
crops) and the `test_manual_derive` manual-size states, once with the
manual size unreferenced elsewhere and once with a second referent. -/
theorem delete_cascade_and_manual_size_witness :
    (∃ db1, delete_image dbCascade 1 = .ok db1 ∧
      (∀ i ∈ db1.images, i.id ∉ deletedIds dbCascade 1) ∧
      (∀ i ∈ db1.images, i.original ≠ some 1) ∧
      (∀ c ∈ db1.crops, c.image_id ∉ deletedIds dbCascade 1)) ∧
    (∃ db1, delete_image dbManualOnly 2 = .ok db1 ∧
      ((∀ j ∈ dbManualOnly.images, j.id ≠ 2 → j.size ≠ some 7) →
        manualSize ∉ db1.sizes) ∧
      ((∃ j ∈ dbManualOnly.images, j.id ≠ 2 ∧ j.size = some 7) →
        manualSize ∈ db1.sizes)) ∧
    (∃ db1, delete_image dbManualShared 2 = .ok db1 ∧
      ((∀ j ∈ dbManualShared.images, j.id ≠ 2 → j.size ≠ some 7) →
        manualSize ∉ db1.sizes) ∧
      ((∃ j ∈ dbManualShared.images, j.id ≠ 2 ∧ j.size = some 7) →
        manualSize ∈ db1.sizes)) :=
  ⟨delete_cascade_and_manual_size.1 dbCascade 1 testOriginal (by decide) rfl,
   delete_cascade_and_manual_size.2 dbManualOnly 2 manImg 1 7 manualSize
     (by decide) rfl rfl (by decide) rfl rfl,
   delete_cascade_and_manual_size.2 dbManualShared 2 manImg 1 7 manualSize
     (by decide) rfl rfl (by decide) rfl rfl⟩

end Cropduster
